import Mathlib

/-!
Verification of the fetch-orchestration, validation and cache subsystem of the
Lyrica lyrics aggregator.  The Python sources are shallowly embedded: every
definition below mirrors a function of the repository (names are kept), with
Python strings modelled over their character lists (ASCII semantics), Python
floats modelled as rationals, dictionaries modelled as structures restricted to
the keys the embedded code reads, and the cooperative scheduler of race mode
modelled by an explicit completion-ordered list of task results.  The
SequenceMatcher similarity metric of difflib and the sha256 digest are external
library primitives; they enter the model as explicit function parameters, and
all theorems quantify over them.
-/

set_option maxRecDepth 10000
set_option linter.unusedVariables false

namespace Lyrica

/-! ### Python string primitives (src/src/validator.py helpers) -/

/-- Python whitespace class, as matched by the regex class backslash-s. -/
def pyIsSpace (c : Char) : Bool :=
  c = ' ' || c = '\t' || c = '\n' || c = '\r' || c = '\x0b' || c = '\x0c'

/-- Python word-character class (regex backslash-w), ASCII fragment. -/
def isWordChar (c : Char) : Bool :=
  c.isAlphanum || c = '_'

/-- Replace every whitespace run by a single space, as re.sub of a
whitespace-plus pattern with a single space.  The flag records whether the
previous character was part of a whitespace run. -/
def collapseWS : Bool → List Char → List Char
  | _, [] => []
  | prevSpace, c :: rest =>
    if pyIsSpace c then
      if prevSpace then collapseWS true rest
      else ' ' :: collapseWS true rest
    else c :: collapseWS false rest

/-- Python str.strip on a character list. -/
def pyStripList (cs : List Char) : List Char :=
  ((cs.dropWhile pyIsSpace).reverse.dropWhile pyIsSpace).reverse

/-- Python str.strip. -/
def pyStrip (s : String) : String :=
  ⟨pyStripList s.data⟩

/-- Python str.lower, ASCII fragment. -/
def pyLower (s : String) : String :=
  ⟨s.data.map Char.toLower⟩

/-- validator.normalize_string: drop characters that are neither word
characters nor whitespace, collapse whitespace runs to single spaces,
lowercase, strip. -/
def normalize_string (text : String) : String :=
  let kept := text.data.filter (fun c => isWordChar c || pyIsSpace c)
  let collapsed := collapseWS false kept
  ⟨pyStripList (collapsed.map Char.toLower)⟩

/-- Python substring containment (the in operator on strings): the second
argument occurs contiguously inside the first. -/
def pyContains : List Char → List Char → Bool
  | [], needle => needle.isEmpty
  | c :: rest, needle => needle.isPrefixOf (c :: rest) || pyContains rest needle

/-- Python str.split on a single separator character (used for the comma
split of the user sequence string and of the cache payload). -/
def pySplitOn (sep : Char) : List Char → List (List Char)
  | [] => [[]]
  | c :: rest =>
    if c = sep then [] :: pySplitOn sep rest
    else
      match pySplitOn sep rest with
      | [] => [[c]]
      | t :: ts => (c :: t) :: ts

/-! ### validator.split_artists

The featuring conjunctions (feat., ft., featuring, with, ampersand, and) are
rewritten to comma separators by a case-insensitive regex substitution, then
the string is split on comma / semicolon / slash delimiters, each with
optional surrounding whitespace.  The regex alternatives begin with
non-whitespace characters, so the greedy leading whitespace-star of the
pattern never needs backtracking and leftmost-match scanning is position by
position. -/

/-- Number of leading Python-whitespace characters. -/
def countWS (cs : List Char) : Nat :=
  (cs.takeWhile pyIsSpace).length

/-- Case-insensitive prefix test (ASCII lowering on both sides). -/
def startsWithCI : List Char → List Char → Bool
  | [], _ => true
  | _ :: _, [] => false
  | p :: ps, c :: cs => (p.toLower = c.toLower) && startsWithCI ps cs

/-- The featuring-pattern alternatives, in the order the regex tries them. -/
def featAlternatives : List (List Char) :=
  ["feat.".data, "ft.".data, "featuring".data, "with".data, "&".data, "and".data]

/-- First alternative matching at the head of the list, with its length. -/
def tryAltAt (alts : List (List Char)) (cs : List Char) : Option Nat :=
  alts.findSome? fun alt => if startsWithCI alt cs then some alt.length else none

/-- Length of the regex match of optional whitespace, one featuring
alternative, optional whitespace, at the head of the list; none if the
pattern does not match here. -/
def tryFeatMatch (cs : List Char) : Option Nat :=
  let w := countWS cs
  let rest := cs.drop w
  match tryAltAt featAlternatives rest with
  | some n => some (w + n + countWS (rest.drop n))
  | none => none

/-- Leftmost-match scanning re.sub of the featuring pattern with a comma and
a space.  The fuel argument bounds the scan by the input length; every step
consumes at least one character. -/
def featSubAux : Nat → List Char → List Char
  | 0, cs => cs
  | _ + 1, [] => []
  | fuel + 1, c :: rest =>
    match tryFeatMatch (c :: rest) with
    | some n => ',' :: ' ' :: featSubAux fuel ((c :: rest).drop n)
    | none => c :: featSubAux fuel rest

/-- re.sub of the featuring pattern with a comma and a space. -/
def featSub (cs : List Char) : List Char :=
  featSubAux cs.length cs

/-- The split delimiters of validator.split_artists. -/
def isDelim (c : Char) : Bool :=
  c = ',' || c = ';' || c = '/'

/-- Length of the delimiter-pattern match (optional whitespace, one
delimiter, optional whitespace) at the head of the list. -/
def tryDelimMatch (cs : List Char) : Option Nat :=
  let w := countWS cs
  match cs.drop w with
  | c :: rest => if isDelim c then some (w + 1 + countWS rest) else none
  | [] => none

/-- Leftmost-match scanning re.split on the delimiter pattern. -/
def delimSplitAux : Nat → List Char → List Char → List (List Char)
  | 0, acc, cs => [acc.reverse ++ cs]
  | _ + 1, acc, [] => [acc.reverse]
  | fuel + 1, acc, c :: rest =>
    match tryDelimMatch (c :: rest) with
    | some n => acc.reverse :: delimSplitAux fuel [] ((c :: rest).drop n)
    | none => delimSplitAux fuel (c :: acc) rest

/-- re.split on the delimiter pattern. -/
def delimSplit (cs : List Char) : List (List Char) :=
  delimSplitAux cs.length [] cs

/-- validator.split_artists: rewrite featuring conjunctions to commas, split
on delimiters, keep pieces whose strip is non-empty, normalize each. -/
def split_artists (artist_str : String) : List String :=
  if artist_str = "" then []
  else
    let pieces := delimSplit (featSub artist_str.data)
    (pieces.filter (fun p => pyStripList p ≠ [])).map (fun p => normalize_string ⟨p⟩)

/-! ### The candidate dictionary

A provider result is a Python dictionary; the model keeps exactly the keys
read by the validator (artist and song aliases), by the timestamp gate of the
fetch controller, and by the cache-write decision of the router.  A missing
key and a falsy value behave identically in every read below, so both are
modelled by the falsy value.  The dictionary itself being None or empty is
modelled at the call sites by Option. -/

/-- A value found under an artist key: absent/None, a string, or a list of
strings. -/
inductive MetaVal where
  | vnone
  | vstr (s : String)
  | vlist (xs : List String)
deriving DecidableEq

/-- Python truthiness of a MetaVal. -/
def MetaVal.truthy : MetaVal → Bool
  | .vnone => false
  | .vstr s => s ≠ ""
  | .vlist xs => xs ≠ []

/-- Python or-chains over artist values: first truthy operand, last operand
when all are falsy. -/
def metaCoalesce : List MetaVal → MetaVal
  | [] => .vnone
  | [v] => v
  | v :: vs => if v.truthy then v else metaCoalesce vs

/-- Python or-chains over optional strings (truthiness is non-emptiness). -/
def strCoalesce : List (Option String) → Option String
  | [] => none
  | [v] => v
  | v :: vs => if (v.getD "") ≠ "" then v else strCoalesce vs

/-- One entry of a synchronized lyric track. -/
structure TimedLine where
  text : String
  start_time : Int
  end_time : Int
deriving DecidableEq

/-- A provider result dictionary, restricted to the keys the embedded code
reads.  The timestamped key holds a synced-lyrics string or None in the
sources; only its truthiness is ever read, so it is a Bool here, and likewise
for hasTimestamps. -/
structure LyrDict where
  artist : MetaVal
  artists : MetaVal
  artist_name : MetaVal
  trackArtist : MetaVal
  song : Option String
  song_title : Option String
  title : Option String
  name : Option String
  trackName : Option String
  hasTimestamps : Bool
  timed_lyrics : List TimedLine
  timestamped : Bool
  lyrics : String
  plain_lyrics : String
  lyrics_text : String
deriving DecidableEq

/-- The dictionary with every key absent. -/
def LyrDict.empty : LyrDict :=
  ⟨.vnone, .vnone, .vnone, .vnone, none, none, none, none, none,
   false, [], false, "", "", ""⟩

/-- validator.extract_artist_song_from_result: coalesce the artist aliases
and the song aliases by truthiness, then normalize (splitting an artist
string, normalizing each member of an artist list). -/
def extract_artist_song_from_result (result : LyrDict) : List String × String :=
  let artist := metaCoalesce
    [result.artist, result.artists, result.artist_name, result.trackArtist]
  let song := strCoalesce
    [result.song, result.song_title, result.title, result.name, result.trackName]
  let returned_artists :=
    match artist with
    | .vlist xs => (xs.filter (fun a => a ≠ "")).map normalize_string
    | .vstr s => split_artists s
    | .vnone => []
  (returned_artists, normalize_string (song.getD ""))

/-! ### validator similarity and matching

The character-level similarity metric is difflib.SequenceMatcher.ratio, a
library primitive outside this repository; it enters the model as the
explicit parameter named ratio, applied to the already-normalized strings
exactly as in the source, and every theorem holds for an arbitrary ratio. -/

/-- validator.get_similarity_ratio: normalize both strings, return zero when
either is empty, otherwise the SequenceMatcher ratio. -/
def get_similarity_ratio (ratio : String → String → ℚ) (str1 str2 : String) : ℚ :=
  let s1 := normalize_string str1
  let s2 := normalize_string str2
  if s1 = "" || s2 = "" then 0 else ratio s1 s2

/-- The validation verdict dictionary.  Optional fields model keys that the
source omits on the missing-metadata path.  The source rounds the stored
song similarity to three decimals for display; the model keeps the exact
value, which no claim inspects numerically. -/
structure Verdict where
  valid : Bool
  reason : String
  returned_artists : Option (List String)
  returned_song : Option String
  song_match : Option ℚ
deriving DecidableEq

/-- The artist-matching loop of validator.validate_lyrics_match: for each
requested artist in order, try the artist-list similarity check, then the
partial-artist-string containment check, then the song-title containment
check; the first hit stops the loop with its method tag. -/
def artistLoop (ratio : String → String → ℚ) (threshold : ℚ)
    (returned_artists : List String) (raw_str returned_song : String) :
    List String → Option String
  | [] => none
  | req :: rest =>
    if returned_artists.any
        (fun ret => decide (threshold ≤ get_similarity_ratio ratio req ret)) then
      some "Artist List"
    else if decide (3 < req.length) && pyContains raw_str.data req.data then
      some "Partial Artist String"
    else if decide (3 < req.length) && pyContains returned_song.data req.data then
      some "Song Title"
    else
      artistLoop ratio threshold returned_artists raw_str returned_song rest

/-- validator.validate_lyrics_match.  The source signature defaults the
threshold to one half; both call sites in the controller pass 0.75. -/
def validate_lyrics_match (ratio : String → String → ℚ)
    (requested_artist requested_song : String) (result : LyrDict)
    (threshold : ℚ) : Verdict :=
  let requested_artists := split_artists requested_artist
  let normalized_requested_song := normalize_string requested_song
  let extracted := extract_artist_song_from_result result
  let returned_artists := extracted.1
  let returned_song := extracted.2
  let raw_returned_artists_str := String.intercalate " " returned_artists
  if returned_artists = [] || returned_song = "" then
    { valid := false, reason := "Missing metadata",
      returned_artists := none, returned_song := none, song_match := none }
  else
    let song_similarity :=
      get_similarity_ratio ratio normalized_requested_song returned_song
    match artistLoop ratio threshold returned_artists raw_returned_artists_str
        returned_song requested_artists with
    | some m =>
      if threshold ≤ song_similarity then
        { valid := true, reason := "Matched via " ++ m,
          returned_artists := some returned_artists,
          returned_song := some returned_song,
          song_match := some song_similarity }
      else
        { valid := false, reason := "Artist not found in metadata",
          returned_artists := some returned_artists,
          returned_song := some returned_song,
          song_match := some song_similarity }
    | none =>
      { valid := false, reason := "Artist not found in metadata",
        returned_artists := some returned_artists,
        returned_song := some returned_song,
        song_match := some song_similarity }

/-- One element of the attempts list handed to the batch filter: the api
name, the value of the success key (defaulting to True when the key is
absent, as in the sequential call site), and the result value when the
result key is present and truthy. -/
structure VAttempt where
  api : String
  success : Bool
  result : Option LyrDict
deriving DecidableEq

/-- An accepted candidate of the batch filter. -/
structure ValidEntry where
  api : String
  result : LyrDict
  validation : Verdict
deriving DecidableEq

/-- The return dictionary of validator.validate_and_filter_results.  The
source also accumulates a list of invalid results which it drops before
returning; the model omits that dead computation. -/
structure FilterOutcome where
  has_valid_match : Bool
  valid_results : List ValidEntry
  all_failed : Bool
deriving DecidableEq

/-- The accumulation loop of validate_and_filter_results: skip attempts whose
success key is false or whose result is absent or falsy, validate the rest in
order, keep the valid ones. -/
def collectValid (ratio : String → String → ℚ)
    (requested_artist requested_song : String) (threshold : ℚ) :
    List VAttempt → List ValidEntry
  | [] => []
  | a :: rest =>
    if a.success then
      match a.result with
      | some r =>
        let val := validate_lyrics_match ratio requested_artist requested_song r threshold
        if val.valid then
          ⟨a.api, r, val⟩ :: collectValid ratio requested_artist requested_song threshold rest
        else
          collectValid ratio requested_artist requested_song threshold rest
      | none => collectValid ratio requested_artist requested_song threshold rest
    else
      collectValid ratio requested_artist requested_song threshold rest

/-- validator.validate_and_filter_results. -/
def validate_and_filter_results (ratio : String → String → ℚ)
    (requested_artist requested_song : String) (attempts : List VAttempt)
    (threshold : ℚ) : FilterOutcome :=
  let vr := collectValid ratio requested_artist requested_song threshold attempts
  { has_valid_match := decide (0 < vr.length),
    valid_results := vr,
    all_failed := decide (vr.length = 0) }

/-! ### src/src/fetch_controller.py

Provider adapters are external collaborators invoked through one operation.
An adapter call is modelled by its wall-clock duration in seconds and by its
outcome: a returned value (None and the empty dictionary are both falsy and
modelled as none) or a raised exception.  The cooperative scheduler of race
mode is modelled by the completion-ordered list of the per-task results. -/

/-- Numeric index to fetcher display name (FETCHER_MAP and the all_fetchers
dictionaries of the controller).  All six fetchers are instantiated
unconditionally in src/src/sources, so the not-configured branch of the
controller is unreachable and the lookup never yields a missing fetcher. -/
def FETCHER_MAP : Nat → Option String
  | 1 => some "Genius"
  | 2 => some "LRCLIB"
  | 3 => some "SimpMusic"
  | 4 => some "YouTube Music"
  | 5 => some "Lyrics.ovh"
  | 6 => some "ChartLyrics"
  | _ => none

def DEFAULT_SYNCED_SEQUENCE : List Nat := [2, 3, 4]

def DEFAULT_PLAIN_SEQUENCE : List Nat := [1, 2, 3, 4, 5, 6]

def FAST_MODE_SEQUENCE : List Nat := [2, 3]

/-- What one adapter call does: return a value (none models None or an empty
dictionary, both falsy) or raise. -/
inductive FetchOutcome where
  | fetched (r : Option LyrDict)
  | raised (msg : String)
deriving DecidableEq

/-- One adapter call: how many seconds it runs and what it produces then. -/
structure AdapterCall where
  duration : Nat
  outcome : FetchOutcome
deriving DecidableEq

/-- The timestamp acceptance test shared by fetch_with_timeout and the
sequential loop: when timestamps were requested, accept only results whose
hasTimestamps key is truthy, or whose timed_lyrics list is non-empty, or
whose timestamped key is truthy. -/
def timestampGate (timestamps : Bool) (r : LyrDict) : Bool :=
  !timestamps || r.hasTimestamps || decide (r.timed_lyrics ≠ []) || r.timestamped

/-- The per-task result dictionary produced by fetch_with_timeout: api name,
success flag, the result on success, the failure reason otherwise. -/
structure RaceAttempt where
  api : String
  success : Bool
  result : Option LyrDict
  reason : Option String
deriving DecidableEq

/-- fetch_controller.fetch_with_timeout: run the adapter under
asyncio.wait_for with the given bound (the source defaults it to 10 seconds
and race mode always uses that default); a call outliving the bound becomes a
timeout attempt, a raised exception becomes an error attempt, a falsy result
or one failing the timestamp gate becomes a no_results attempt. -/
def fetch_with_timeout (api_name : String) (call : AdapterCall)
    (timestamps : Bool) (timeout : Nat) : RaceAttempt :=
  if timeout < call.duration then
    { api := api_name, success := false, result := none, reason := some "timeout" }
  else
    match call.outcome with
    | .raised e =>
      { api := api_name, success := false, result := none, reason := some e }
    | .fetched none =>
      { api := api_name, success := false, result := none, reason := some "no_results" }
    | .fetched (some r) =>
      if timestampGate timestamps r then
        { api := api_name, success := true, result := some r, reason := none }
      else
        { api := api_name, success := false, result := none, reason := some "no_results" }

/-- The collection loop of fetch_lyrics_parallel over the completion-ordered
task results: append each completed attempt; at the first successful one,
cancel the rest (they contribute nothing further) and return its result with
the attempts accumulated so far. -/
def raceCollect : List RaceAttempt → Option LyrDict × List RaceAttempt
  | [] => (none, [])
  | a :: rest =>
    if a.success then (a.result, [a])
    else
      let r := raceCollect rest
      (r.1, a :: r.2)

/-- fetch_controller.fetch_lyrics_parallel.  The argument is the list of
fetch_with_timeout results of the raced tasks in the order the scheduler
delivers their completions; an empty task set yields none and no attempts,
exactly as the early return of the source. -/
def fetch_lyrics_parallel (arrivals : List RaceAttempt) :
    Option LyrDict × List RaceAttempt :=
  raceCollect arrivals

/-- The task set created by fetch_lyrics_parallel: ids present in the
all_fetchers table (the per-id fetcher objects always exist, see
FETCHER_MAP). -/
def raceTaskIds (fetcher_ids : List Nat) : List Nat :=
  fetcher_ids.filter (fun id => (FETCHER_MAP id).isSome)

/-- The final verdict of an orchestration run: a success dictionary with the
chosen data and the optional validation info attached by race mode, or an
error dictionary.  The source also stamps errors with the current UTC time,
which the model omits. -/
inductive ControllerResult where
  | success (data : LyrDict) (validation : Option Verdict)
  | error (message : String)
deriving DecidableEq

/-- The data payload of a success verdict. -/
def ControllerResult.dataOf : ControllerResult → Option LyrDict
  | .success d _ => some d
  | .error _ => none

/-- View of a race attempt dictionary as an input of the batch filter: the
success key is explicit, and the result key is present exactly on success. -/
def RaceAttempt.toVAttempt (a : RaceAttempt) : VAttempt :=
  ⟨a.api, a.success, a.result⟩

/-- The race-mode tail of fetch_lyrics_controller (after task creation):
race the tasks, validate the accumulated attempts as a batch at threshold
0.75, answer with the first valid entry of the batch; attach the validation
info only when the recorded song similarity is below one (the verdict never
carries an artist_match key, so that side of the source condition always
reads its default of one). -/
def raceModeResult (ratio : String → String → ℚ)
    (artist_name song_title : String) (arrivals : List RaceAttempt) :
    ControllerResult :=
  let pr := fetch_lyrics_parallel arrivals
  match pr.1 with
  | some result =>
    let validation :=
      validate_and_filter_results ratio artist_name song_title
        (pr.2.map RaceAttempt.toVAttempt) (mkRat 3 4)
    if validation.has_valid_match then
      match validation.valid_results with
      | v :: _ =>
        if (v.validation.song_match.getD 1) < 1 then
          .success v.result (some v.validation)
        else
          .success v.result none
      | [] => .success result none
    else
      .error ("Found results but none matched \x27" ++ song_title ++
        "\x27 by \x27" ++ artist_name ++
        "\x27 (possible wrong song returned by API)")
  | none =>
    .error ("No lyrics found for \x27" ++ song_title ++ "\x27 by \x27" ++
      artist_name ++ "\x27")

/-- Status of one sequential-mode attempt record. -/
inductive SeqStatus where
  | not_configured
  | validation_failed
  | no_results
  | errored (msg : String)
deriving DecidableEq

/-- One sequential-mode attempt record. -/
structure SeqAttempt where
  api : String
  status : SeqStatus
deriving DecidableEq

/-- The per-provider body of the sequential loop of fetch_lyrics_controller.
The adapter is awaited directly (maybe_await), so the call duration is never
consulted and no per-call timeout exists on this path; a raised exception is
caught and recorded, a falsy result or one failing the timestamp gate is
recorded as no_results, and an accepted result is validated alone at
threshold 0.75, returning its data when valid and recording
validation_failed otherwise. -/
def seqStep (ratio : String → String → ℚ)
    (artist_name song_title : String) (timestamps : Bool)
    (api_name : String) (call : AdapterCall) : SeqAttempt ⊕ LyrDict :=
  match call.outcome with
  | .raised e => .inl ⟨api_name, .errored e⟩
  | .fetched none => .inl ⟨api_name, .no_results⟩
  | .fetched (some result) =>
    if timestampGate timestamps result then
      let validation := validate_and_filter_results ratio artist_name song_title
        [⟨api_name, true, some result⟩] (mkRat 3 4)
      if validation.has_valid_match then
        match validation.valid_results with
        | v :: _ => .inr v.result
        | [] => .inr result
      else
        .inl ⟨api_name, .validation_failed⟩
    else
      .inl ⟨api_name, .no_results⟩

/-- The sequential loop of fetch_lyrics_controller: visit the ids in order,
stop at the first provider whose candidate is accepted and validates.  The
components are the accumulated attempt records, the returned data when some
provider won, and the ids whose adapters were invoked.  Ids reaching this
loop always lie in the fetcher table (default sequences, or a validated
custom sequence of length one). -/
def seqLoop (ratio : String → String → ℚ) (artist_name song_title : String)
    (timestamps : Bool) (behavior : Nat → AdapterCall) :
    List Nat → List SeqAttempt × Option LyrDict × List Nat
  | [] => ([], none, [])
  | id :: rest =>
    match seqStep ratio artist_name song_title timestamps
        ((FETCHER_MAP id).getD "") (behavior id) with
    | .inr data => ([], some data, [id])
    | .inl att =>
      let r := seqLoop ratio artist_name song_title timestamps behavior rest
      (att :: r.1, r.2.1, id :: r.2.2)

/-- The sequential-mode tail of fetch_lyrics_controller: run the loop and
wrap its outcome, falling back to the no-lyrics error when every provider is
exhausted. -/
def seqModeResult (ratio : String → String → ℚ)
    (artist_name song_title : String) (timestamps : Bool)
    (behavior : Nat → AdapterCall) (fetcher_ids : List Nat) :
    ControllerResult × List SeqAttempt × List Nat :=
  let t := seqLoop ratio artist_name song_title timestamps behavior fetcher_ids
  match t.2.1 with
  | some data => (.success data none, t.1, t.2.2)
  | none =>
    (.error ("No lyrics found for \x27" ++ song_title ++ "\x27 by \x27" ++
      artist_name ++ "\x27"), t.1, t.2.2)

/-! ### Sequence parsing and mode dispatch -/

/-- Value of an ASCII digit. -/
def digitVal (c : Char) : Option Nat :=
  if c.isDigit then some (c.toNat - 48) else none

/-- Digit tail of a Python integer literal: digits with single underscores
allowed between digits. -/
def pyIntDigits : Nat → List Char → Option Nat
  | acc, [] => some acc
  | acc, c :: rest =>
    match digitVal c with
    | some d => pyIntDigits (acc * 10 + d) rest
    | none =>
      if c = '_' then
        match rest with
        | r :: _ => if r.isDigit then pyIntDigits acc rest else none
        | [] => none
      else none

/-- Unsigned Python integer literal body: must start with a digit. -/
def pyIntCore : List Char → Option Nat
  | [] => none
  | c :: rest =>
    match digitVal c with
    | some d => pyIntDigits d rest
    | none => none

/-- Python int() on a string: strip whitespace, optional sign, digits; none
models a ValueError. -/
def pyInt (s : String) : Option Int :=
  match pyStripList s.data with
  | '+' :: rest => (pyIntCore rest).map (fun n => (n : Int))
  | '-' :: rest => (pyIntCore rest).map (fun n => -(n : Int))
  | cs => (pyIntCore cs).map (fun n => (n : Int))

/-- The sequence-string parse of fetch_lyrics_controller: split on commas,
keep pieces whose strip is non-empty, convert each with int(); none models
the ValueError branch. -/
def parseSequence (s : String) : Option (List Int) :=
  let pieces := (pySplitOn ',' s.data).map (fun p => (⟨p⟩ : String))
  (pieces.filter (fun x => pyStrip x ≠ "")).mapM pyInt

/-- The rejection test of fetch_lyrics_controller on a parsed custom
sequence: empty, a value outside one to six, more than six entries, or
duplicate entries (Python compares the length against the length of the
set of entries). -/
def sequenceInvalid (ids : List Int) : Bool :=
  ids.isEmpty || !(ids.all (fun x => decide (1 ≤ x) && decide (x ≤ 6))) ||
    decide (6 < ids.length) || decide (ids.length ≠ ids.dedup.length)

/-- Python truthiness of the optional sequence parameter. -/
def seqTruthy : Option String → Bool
  | none => false
  | some s => s ≠ ""

/-- Where the controller goes after choosing the fetcher sequence. -/
inductive ControllerStep where
  | invalidFormat
  | invalidSequence
  | race (ids : List Nat)
  | sequential (ids : List Nat)
deriving DecidableEq

/-- The sequence-selection and mode-selection head of
fetch_lyrics_controller: fast mode races the fast sequence; a supplied
custom sequence (pass flag set and sequence truthy) is parsed and validated,
then raced when it has more than one entry and run sequentially otherwise;
anything else runs the defaults sequentially, synced defaults when
timestamps were requested. -/
def controllerDispatch (timestamps pass_param : Bool)
    (sequence : Option String) (fast_mode : Bool) : ControllerStep :=
  if fast_mode then .race FAST_MODE_SEQUENCE
  else if pass_param && seqTruthy sequence then
    match parseSequence (sequence.getD "") with
    | none => .invalidFormat
    | some ids =>
      if sequenceInvalid ids then .invalidSequence
      else
        let nids := ids.map Int.toNat
        if 1 < nids.length then .race nids else .sequential nids
  else
    .sequential (if timestamps then DEFAULT_SYNCED_SEQUENCE else DEFAULT_PLAIN_SEQUENCE)

/-- fetch_controller.fetch_lyrics_controller.  The behavior argument gives
the adapter call each provider performs when invoked sequentially; the
arrivals argument gives the completion-ordered task results of race mode.
The second component instruments which provider adapters the run invoked
(task creations in race mode, direct awaits in sequential mode): the
invalid-sequence returns happen before any adapter is touched. -/
def fetch_lyrics_controller (ratio : String → String → ℚ)
    (artist_name song_title : String) (timestamps pass_param : Bool)
    (sequence : Option String) (fast_mode : Bool)
    (behavior : Nat → AdapterCall) (arrivals : List RaceAttempt) :
    ControllerResult × List Nat :=
  match controllerDispatch timestamps pass_param sequence fast_mode with
  | .invalidFormat =>
    (.error "Invalid sequence format: must be comma-separated integers", [])
  | .invalidSequence =>
    (.error "Invalid sequence: must be unique numbers between 1 and 6", [])
  | .race ids =>
    (raceModeResult ratio artist_name song_title arrivals, raceTaskIds ids)
  | .sequential ids =>
    let r := seqModeResult ratio artist_name song_title timestamps behavior ids
    (r.1, r.2.2)

/-! ### src/src/cache.py

The cache directory is modelled as a map from key strings to entries; epoch
times and the TTL are rationals (Python floats).  The stored payload is
opaque to the cache, hence the type parameter.  The sha256 digest is a
library primitive and enters the model as an explicit hash parameter. -/

/-- One cache file: absolute expiry timestamp and the stored payload. -/
structure CacheEntry (α : Type) where
  expiry : ℚ
  result : α

/-- The cache directory: key to entry, none for a missing file. -/
def CacheFS (α : Type) :=
  String → Option (CacheEntry α)

/-- cache.save_to_cache at the given current time: write the entry with
expiry now plus TTL under the key. -/
def save_to_cache {α : Type} (now ttl : ℚ) (key : String) (result : α)
    (fs : CacheFS α) : CacheFS α :=
  fun k => if k = key then some ⟨now + ttl, result⟩ else fs k

/-- cache.load_from_cache at the given current time: a missing file is a
miss; an entry whose expiry is strictly in the past is deleted and reported
as a miss; otherwise the stored payload is returned.  The corrupted-file
branch concerns byte-level JSON damage outside this model. -/
def load_from_cache {α : Type} (now : ℚ) (key : String) (fs : CacheFS α) :
    Option α × CacheFS α :=
  match fs key with
  | none => (none, fs)
  | some entry =>
    if entry.expiry < now then
      (none, fun k => if k = key then none else fs k)
    else
      (some entry.result, fs)

/-- Hexadecimal digit, lowercase, as emitted by the json module for control
characters. -/
def hexDigit (n : Nat) : Char :=
  if n < 10 then Char.ofNat (48 + n) else Char.ofNat (87 + n)

/-- JSON string escaping of one character as performed by json.dumps with
ensure_ascii disabled: quote, backslash and the named control shortcuts are
escaped, remaining control characters become lowercase u-escapes, everything
else is kept verbatim. -/
def pyJsonEscapeChar (c : Char) : List Char :=
  if c = '\"' then ['\\', '\"']
  else if c = '\\' then ['\\', '\\']
  else if c = '\n' then ['\\', 'n']
  else if c = '\t' then ['\\', 't']
  else if c = '\r' then ['\\', 'r']
  else if c = '\x08' then ['\\', 'b']
  else if c = '\x0c' then ['\\', 'f']
  else if c.toNat < 32 then
    ['\\', 'u', '0', '0', hexDigit (c.toNat / 16), hexDigit (c.toNat % 16)]
  else [c]

/-- JSON serialization of a string. -/
def pyJsonStr (s : String) : String :=
  ⟨'\"' :: (s.data.map pyJsonEscapeChar).flatten ++ ['\"']⟩

/-- JSON serialization of a boolean. -/
def pyBool (b : Bool) : String :=
  if b then "true" else "false"

/-- The canonical payload string of cache.make_cache_key: the version tag,
the stripped and lowercased artist and song, the sequence string (None
becomes the empty string), and the three flags, serialized by json.dumps
with sorted keys (artist, fast, metadata, mood, sequence, song, timestamps,
v) and the default item and key separators. -/
def cachePayloadString (artist song : String) (timestamps : Bool)
    (sequence : Option String) (fast mood metadata : Bool) : String :=
  "\x7b\"artist\": " ++ pyJsonStr (pyLower (pyStrip artist)) ++
  ", \"fast\": " ++ pyBool fast ++
  ", \"metadata\": " ++ pyBool metadata ++
  ", \"mood\": " ++ pyBool mood ++
  ", \"sequence\": " ++ pyJsonStr (sequence.getD "") ++
  ", \"song\": " ++ pyJsonStr (pyLower (pyStrip song)) ++
  ", \"timestamps\": " ++ pyBool timestamps ++
  ", \"v\": " ++ pyJsonStr "v2" ++ "\x7d"

/-- cache.make_cache_key: the sha256 hex digest (the hash parameter) of the
canonical payload string. -/
def make_cache_key (sha256hex : String → String) (artist song : String)
    (timestamps : Bool) (sequence : Option String)
    (fast mood metadata : Bool) : String :=
  sha256hex (cachePayloadString artist song timestamps sequence fast mood metadata)

/-! ### The cache write of the lyrics route (src/src/router.py)

The route response is modelled by its status and by the three lyric-bearing
data fields the cache decision reads; a missing data key reads as an empty
dictionary whose fields are all falsy. -/

/-- The data payload fields consulted before caching. -/
structure RespData where
  lyrics : String
  plain_lyrics : String
  lyrics_text : String
deriving DecidableEq

/-- A route response: status and optional data payload. -/
structure ApiResult where
  status : String
  data : Option RespData
deriving DecidableEq

/-- Whether the response payload carries lyric text under any of the three
keys the router checks (the lyrics key holds the synchronized text for timed
results, so both plain and time-coded content pass this test). -/
def hasLyricContent (r : ApiResult) : Bool :=
  let d := r.data.getD ⟨"", "", ""⟩
  d.lyrics ≠ "" || d.plain_lyrics ≠ "" || d.lyrics_text ≠ ""

/-- The cache-if-successful step of the lyrics route: write the response
under the request key exactly when the status is success and the payload
contains lyric text; otherwise leave the cache untouched. -/
def routerCacheStep (now ttl : ℚ) (cache_key : String) (result : ApiResult)
    (fs : CacheFS ApiResult) : CacheFS ApiResult :=
  if result.status = "success" && hasLyricContent result then
    save_to_cache now ttl cache_key result fs
  else
    fs

/-! ### Specification-side predicates

Declarative counterparts of the acceptance conditions, written from the
specification text and related to the embedded code by the theorems. -/

/-- One requested artist name matches the candidate metadata: similarity at
least the threshold against some returned artist, or (length above three) a
substring of the space-joined returned-artist string, or (length above
three) a substring of the normalized returned song title. -/
def artistHit (ratio : String → String → ℚ) (threshold : ℚ)
    (arts : List String) (rsong : String) (req : String) : Prop :=
  (∃ ret ∈ arts, threshold ≤ get_similarity_ratio ratio req ret)
  ∨ (3 < req.length ∧ pyContains (String.intercalate " " arts).data req.data = true)
  ∨ (3 < req.length ∧ pyContains rsong.data req.data = true)

instance (ratio : String → String → ℚ) (threshold : ℚ) (arts : List String)
    (rsong req : String) : Decidable (artistHit ratio threshold arts rsong req) := by
  unfold artistHit
  infer_instance

/-- The tag of the first matching method for one requested artist, in the
order the methods are tried. -/
def hitTag (ratio : String → String → ℚ) (threshold : ℚ)
    (arts : List String) (rsong req : String) : String :=
  if ∃ ret ∈ arts, threshold ≤ get_similarity_ratio ratio req ret then
    "Artist List"
  else if 3 < req.length ∧ pyContains (String.intercalate " " arts).data req.data = true then
    "Partial Artist String"
  else
    "Song Title"

/-- A response fit to live in the cache: successful and carrying lyric
text. -/
def goodCachedResp (r : ApiResult) : Prop :=
  r.status = "success" ∧ hasLyricContent r = true

instance (r : ApiResult) : Decidable (goodCachedResp r) := by
  unfold goodCachedResp
  infer_instance

/-! ### Concrete data for the closed corollaries -/

/-- A concrete instance of the similarity parameter: one on equal normalized
strings, zero otherwise. -/
def eqRatio (a b : String) : ℚ :=
  if a = b then 1 else 0

/-- The specification example candidate: Ed Sheeran and Stormzy metadata. -/
def exShapeCandidate : LyrDict :=
  { LyrDict.empty with artist := .vstr "Ed Sheeran, Stormzy", title := some "Shape of You" }

/-- A candidate for the requested song by the requested artist. -/
def exHelloA : LyrDict :=
  { LyrDict.empty with artist := .vstr "Adele", title := some "Hello", lyrics := "a" }

/-- A second valid candidate for the same request, distinct content. -/
def exHelloB : LyrDict :=
  { LyrDict.empty with artist := .vstr "Adele", title := some "Hello", lyrics := "b" }

/-- A candidate whose song title does not match the request. -/
def exWrongSong : LyrDict :=
  { LyrDict.empty with artist := .vstr "Adele", title := some "Wrong Song", lyrics := "w" }

/-- A synchronized result whose hasTimestamps key is falsy but whose timed
track is non-empty. -/
def exTimedNoFlag : LyrDict :=
  { LyrDict.empty with
    artist := .vstr "Adele", title := some "Hello",
    hasTimestamps := false, timed_lyrics := [⟨"line one", 0, 4000⟩], lyrics := "synced" }

/-- A plain result with no synchronized data under any key. -/
def exPlainOnly : LyrDict :=
  { LyrDict.empty with artist := .vstr "Adele", title := some "Hello", lyrics := "text" }

/-- A candidate carrying lyric content but no artist metadata at all. -/
def noMetaCandidate : LyrDict :=
  { LyrDict.empty with title := some "Hello", lyrics := "text" }

/-- Adapters that all return nothing. -/
def idleBehavior : Nat → AdapterCall :=
  fun _ => ⟨0, .fetched none⟩

/-- The specification example run for sequential mode: provider two returns
a wrong song, provider three a valid match, provider four nothing. -/
def seqBehaviorExample : Nat → AdapterCall :=
  fun id =>
    if id = 2 then ⟨0, .fetched (some exWrongSong)⟩
    else if id = 3 then ⟨0, .fetched (some exHelloA)⟩
    else ⟨0, .fetched none⟩

/-- Provider two serves the flagless synchronized result. -/
def tsBehaviorExample : Nat → AdapterCall :=
  fun id =>
    if id = 2 then ⟨0, .fetched (some exTimedNoFlag)⟩ else ⟨0, .fetched none⟩

/-- The outcomes of the slow-call example: provider one succeeds, the rest
return nothing. -/
def exOutcome : Nat → FetchOutcome :=
  fun id => if id = 1 then .fetched (some exHelloA) else .fetched none

/-- Provider one needs far longer than the ten-second bound. -/
def slowBehaviorExample : Nat → AdapterCall :=
  fun id => ⟨if id = 1 then 9999 else 0, exOutcome id⟩

/-- The same outcomes delivered instantly. -/
def fastBehaviorExample : Nat → AdapterCall :=
  fun id => ⟨0, exOutcome id⟩

/-- Race completion order for the priority counterexample: the
lower-priority provider three completes first, the higher-priority provider
two second, both successfully. -/
def raceArrivalsExample : List RaceAttempt :=
  [⟨"SimpMusic", true, some exHelloB, none⟩,
   ⟨"LRCLIB", true, some exHelloA, none⟩]

/-- Race completion order with a failure arriving before the success. -/
def raceArrivalsLate : List RaceAttempt :=
  [⟨"LRCLIB", false, none, some "timeout"⟩,
   ⟨"SimpMusic", true, some exHelloB, none⟩]

/-! ### Helper lemmas -/

lemma validate_missing (ratio : String → String → ℚ) (ra rs : String)
    (r : LyrDict) (θ : ℚ)
    (h : (extract_artist_song_from_result r).1 = []
      ∨ (extract_artist_song_from_result r).2 = "") :
    validate_lyrics_match ratio ra rs r θ
      = ⟨false, "Missing metadata", none, none, none⟩ := by
  rcases h with h | h <;> simp [validate_lyrics_match, h]

lemma validate_shape (ratio : String → String → ℚ) (ra rs : String)
    (r : LyrDict) (θ : ℚ)
    (hA : (extract_artist_song_from_result r).1 ≠ [])
    (hS : (extract_artist_song_from_result r).2 ≠ "") :
    validate_lyrics_match ratio ra rs r θ =
      match artistLoop ratio θ (extract_artist_song_from_result r).1
          (String.intercalate " " (extract_artist_song_from_result r).1)
          (extract_artist_song_from_result r).2 (split_artists ra) with
      | some m =>
        if θ ≤ get_similarity_ratio ratio (normalize_string rs)
            (extract_artist_song_from_result r).2 then
          ⟨true, "Matched via " ++ m,
           some (extract_artist_song_from_result r).1,
           some (extract_artist_song_from_result r).2,
           some (get_similarity_ratio ratio (normalize_string rs)
             (extract_artist_song_from_result r).2)⟩
        else
          ⟨false, "Artist not found in metadata",
           some (extract_artist_song_from_result r).1,
           some (extract_artist_song_from_result r).2,
           some (get_similarity_ratio ratio (normalize_string rs)
             (extract_artist_song_from_result r).2)⟩
      | none =>
        ⟨false, "Artist not found in metadata",
         some (extract_artist_song_from_result r).1,
         some (extract_artist_song_from_result r).2,
         some (get_similarity_ratio ratio (normalize_string rs)
           (extract_artist_song_from_result r).2)⟩ := by
  simp only [validate_lyrics_match]
  rw [if_neg (by simp [hA, hS])]

lemma artistLoop_cons (ratio : String → String → ℚ) (θ : ℚ)
    (arts : List String) (rsong req : String) (rest : List String) :
    artistLoop ratio θ arts (String.intercalate " " arts) rsong (req :: rest)
      = if artistHit ratio θ arts rsong req then
          some (hitTag ratio θ arts rsong req)
        else
          artistLoop ratio θ arts (String.intercalate " " arts) rsong rest := by
  simp only [artistLoop]
  by_cases h1 : ∃ ret ∈ arts, θ ≤ get_similarity_ratio ratio req ret
  · have b1 : (arts.any fun ret => decide (θ ≤ get_similarity_ratio ratio req ret)) = true := by
      rw [List.any_eq_true]
      simpa using h1
    rw [if_pos b1, if_pos (show artistHit ratio θ arts rsong req from Or.inl h1)]
    unfold hitTag
    rw [if_pos h1]
  · have b1 : ¬ (arts.any fun ret => decide (θ ≤ get_similarity_ratio ratio req ret)) = true := by
      rw [List.any_eq_true]
      simpa using h1
    rw [if_neg b1]
    by_cases h2 : 3 < req.length ∧ pyContains (String.intercalate " " arts).data req.data = true
    · have b2 : (decide (3 < req.length) && pyContains (String.intercalate " " arts).data req.data) = true := by
        simp [h2.1, h2.2]
      rw [if_pos b2, if_pos (show artistHit ratio θ arts rsong req from Or.inr (Or.inl h2))]
      unfold hitTag
      rw [if_neg h1, if_pos h2]
    · have b2 : ¬ (decide (3 < req.length) && pyContains (String.intercalate " " arts).data req.data) = true := by
        simpa using h2
      rw [if_neg b2]
      by_cases h3 : 3 < req.length ∧ pyContains rsong.data req.data = true
      · have b3 : (decide (3 < req.length) && pyContains rsong.data req.data) = true := by
          simp [h3.1, h3.2]
        rw [if_pos b3, if_pos (show artistHit ratio θ arts rsong req from Or.inr (Or.inr h3))]
        unfold hitTag
        rw [if_neg h1, if_neg h2]
      · have b3 : ¬ (decide (3 < req.length) && pyContains rsong.data req.data) = true := by
          simpa using h3
        rw [if_neg b3, if_neg (show ¬ artistHit ratio θ arts rsong req from ?_)]
        rintro (h | h | h)
        · exact h1 h
        · exact h2 h
        · exact h3 h

lemma artistLoop_none_iff (ratio : String → String → ℚ) (θ : ℚ)
    (arts : List String) (rsong : String) (reqs : List String) :
    artistLoop ratio θ arts (String.intercalate " " arts) rsong reqs = none
      ↔ ∀ q ∈ reqs, ¬ artistHit ratio θ arts rsong q := by
  induction reqs with
  | nil => simp [artistLoop]
  | cons req rest ih =>
    rw [artistLoop_cons]
    by_cases h : artistHit ratio θ arts rsong req
    · simp [h]
    · simp [h, ih]

lemma artistLoop_some (ratio : String → String → ℚ) (θ : ℚ)
    (arts : List String) (rsong : String) :
    ∀ (reqs : List String) (tag : String),
      artistLoop ratio θ arts (String.intercalate " " arts) rsong reqs = some tag →
      ∃ pre req post, reqs = pre ++ req :: post
        ∧ (∀ q ∈ pre, ¬ artistHit ratio θ arts rsong q)
        ∧ artistHit ratio θ arts rsong req
        ∧ tag = hitTag ratio θ arts rsong req := by
  intro reqs
  induction reqs with
  | nil =>
    intro tag h
    simp [artistLoop] at h
  | cons req rest ih =>
    intro tag h
    rw [artistLoop_cons] at h
    by_cases hh : artistHit ratio θ arts rsong req
    · rw [if_pos hh] at h
      exact ⟨[], req, rest, rfl, by simp, hh, (Option.some_inj.mp h).symm⟩
    · rw [if_neg hh] at h
      obtain ⟨pre, r0, post, hEq, hPre, hHit, hTag⟩ := ih tag h
      refine ⟨req :: pre, r0, post, by simp [hEq], ?_, hHit, hTag⟩
      intro q hq
      rcases List.mem_cons.mp hq with h1 | h1
      · subst h1; exact hh
      · exact hPre q h1

lemma collectValid_sound (ratio : String → String → ℚ) (ra rs : String) (θ : ℚ) :
    ∀ (attempts : List VAttempt) (e : ValidEntry),
      e ∈ collectValid ratio ra rs θ attempts →
      (validate_lyrics_match ratio ra rs e.result θ).valid = true := by
  intro attempts
  induction attempts with
  | nil =>
    intro e he
    simp [collectValid] at he
  | cons a rest ih =>
    intro e he
    simp only [collectValid] at he
    split at he
    · split at he
      · rename_i r heq
        split at he
        · rename_i hv
          rcases List.mem_cons.mp he with h1 | h1
          · subst h1
            exact hv
          · exact ih e h1
        · exact ih e he
      · exact ih e he
    · exact ih e he

lemma collectValid_skip (ratio : String → String → ℚ) (ra rs : String) (θ : ℚ) :
    ∀ (pre : List RaceAttempt) (rest : List VAttempt),
      (∀ b ∈ pre, b.success = false) →
      collectValid ratio ra rs θ (pre.map RaceAttempt.toVAttempt ++ rest)
        = collectValid ratio ra rs θ rest := by
  intro pre
  induction pre with
  | nil =>
    intro rest _
    rfl
  | cons b pre ih =>
    intro rest hp
    have hb : b.success = false := hp b (List.mem_cons_self _ _)
    simp only [List.map_cons, List.cons_append, collectValid, RaceAttempt.toVAttempt, hb]
    simp only [Bool.false_eq_true, if_false]
    exact ih rest (fun x hx => hp x (List.mem_cons_of_mem _ hx))

lemma raceCollect_split :
    ∀ (pre : List RaceAttempt) (a : RaceAttempt) (post : List RaceAttempt),
      (∀ b ∈ pre, b.success = false) → a.success = true →
      raceCollect (pre ++ a :: post) = (a.result, pre ++ [a]) := by
  intro pre
  induction pre with
  | nil =>
    intro a post _ ha
    simp [raceCollect, ha]
  | cons b pre ih =>
    intro a post hpre ha
    have hb : b.success = false := hpre b (List.mem_cons_self _ _)
    simp [raceCollect, hb, ih a post (fun x hx => hpre x (List.mem_cons_of_mem _ hx)) ha]

lemma seqLoop_split (ratio : String → String → ℚ) (artist song : String)
    (ts : Bool) (behavior : Nat → AdapterCall) :
    ∀ (pre : List Nat) (w : Nat) (post : List Nat) (dw : LyrDict),
      (∀ i ∈ pre,
        (seqStep ratio artist song ts ((FETCHER_MAP i).getD "") (behavior i)).isLeft = true) →
      seqStep ratio artist song ts ((FETCHER_MAP w).getD "") (behavior w) = .inr dw →
      (seqLoop ratio artist song ts behavior (pre ++ w :: post)).2.1 = some dw
      ∧ (seqLoop ratio artist song ts behavior (pre ++ w :: post)).2.2 = pre ++ [w]
      ∧ (seqLoop ratio artist song ts behavior (pre ++ w :: post)).1.length = pre.length := by
  intro pre
  induction pre with
  | nil =>
    intro w post dw _ hw
    simp [seqLoop, hw]
  | cons i pre ih =>
    intro w post dw hpre hw
    have hi := hpre i (List.mem_cons_self _ _)
    obtain ⟨att, hatt⟩ := Sum.isLeft_iff.mp hi
    have ihr := ih w post dw (fun j hj => hpre j (List.mem_cons_of_mem _ hj)) hw
    simp [seqLoop, hatt, ihr.1, ihr.2.1, ihr.2.2]

/-! ### Claim theorems -/

/-- Claim C7: storing a result and loading it back under the same key
returns the result unchanged as long as the load happens no later than the
stored expiry (store time plus TTL), leaving the cache untouched; once the
expiry is in the past, the load reports absent and removes the entry
file. -/
theorem cache_roundtrip_ttl {α : Type} (fs : CacheFS α) (k : String) (r : α)
    (t0 ttl t1 : ℚ) :
    (t1 ≤ t0 + ttl →
      load_from_cache t1 k (save_to_cache t0 ttl k r fs)
        = (some r, save_to_cache t0 ttl k r fs))
    ∧ (t0 + ttl < t1 →
      (load_from_cache t1 k (save_to_cache t0 ttl k r fs)).1 = none
      ∧ (load_from_cache t1 k (save_to_cache t0 ttl k r fs)).2 k = none) := by
  constructor
  · intro h
    simp [load_from_cache, save_to_cache, not_lt.mpr h]
  · intro h
    constructor <;> simp [load_from_cache, save_to_cache, h]

/-- Witness for C7 at concrete times: store at time zero with the
configured TTL of 300 seconds, load at 100 (hit, unchanged) and at 400
(miss, entry removed). -/
theorem cache_roundtrip_ttl_witness :
    (load_from_cache (100 : ℚ) "k" (save_to_cache 0 300 "k" (7 : Nat) (fun _ => none))
      = (some 7, save_to_cache 0 300 "k" (7 : Nat) (fun _ => none)))
    ∧ (load_from_cache (400 : ℚ) "k" (save_to_cache 0 300 "k" (7 : Nat) (fun _ => none))).1 = none
    ∧ (load_from_cache (400 : ℚ) "k" (save_to_cache 0 300 "k" (7 : Nat) (fun _ => none))).2 "k" = none :=
  ⟨(cache_roundtrip_ttl (fun _ => none) "k" 7 0 300 100).1 (by norm_num),
   ((cache_roundtrip_ttl (fun _ => none) "k" 7 0 300 400).2 (by norm_num)).1,
   ((cache_roundtrip_ttl (fun _ => none) "k" 7 0 300 400).2 (by norm_num)).2⟩

/-- Counterexample to claim C8 as stated: changing the artist argument from
Adele to lowercase adele with a trailing space is a change of one argument,
yet the fingerprint is unchanged, because the key derivation strips and
lowercases artist and song before hashing.  Exhibited with the identity as
the hash stand-in; the payload strings themselves coincide, so the equality
holds for every hash function. -/
theorem make_cache_key_case_counterexample :
    make_cache_key (fun s => s) "Adele" "Hello" true (some "2,3") false false false
      = make_cache_key (fun s => s) "adele " "Hello" true (some "2,3") false false false
    ∧ ("Adele" : String) ≠ "adele " := by
  constructor
  · rfl
  · decide

/-- Claim C8 (amended): the key derivation is deterministic, and for the
specification example, changing any one argument in a way that survives the
strip-and-lowercase normalization changes the serialized payload, hence the
fingerprint for any injective hash; insensitivity is limited to case and
outer whitespace of artist and song (and None versus the empty sequence)
plus collisions of the hash itself. -/
theorem make_cache_key_sensitivity (h : String → String)
    (hinj : Function.Injective h) :
    (make_cache_key h "Adele" "Hello" true (some "2,3") false false false
      = make_cache_key h "Adele" "Hello" true (some "2,3") false false false)
    ∧ (make_cache_key h "Adele X" "Hello" true (some "2,3") false false false
      ≠ make_cache_key h "Adele" "Hello" true (some "2,3") false false false)
    ∧ (make_cache_key h "Adele" "Hello 2" true (some "2,3") false false false
      ≠ make_cache_key h "Adele" "Hello" true (some "2,3") false false false)
    ∧ (make_cache_key h "Adele" "Hello" false (some "2,3") false false false
      ≠ make_cache_key h "Adele" "Hello" true (some "2,3") false false false)
    ∧ (make_cache_key h "Adele" "Hello" true (some "2,4") false false false
      ≠ make_cache_key h "Adele" "Hello" true (some "2,3") false false false)
    ∧ (make_cache_key h "Adele" "Hello" true (some "2,3") true false false
      ≠ make_cache_key h "Adele" "Hello" true (some "2,3") false false false)
    ∧ (make_cache_key h "Adele" "Hello" true (some "2,3") false true false
      ≠ make_cache_key h "Adele" "Hello" true (some "2,3") false false false)
    ∧ (make_cache_key h "Adele" "Hello" true (some "2,3") false false true
      ≠ make_cache_key h "Adele" "Hello" true (some "2,3") false false false) :=
  ⟨rfl,
   fun e => absurd (hinj e) (by decide),
   fun e => absurd (hinj e) (by decide),
   fun e => absurd (hinj e) (by decide),
   fun e => absurd (hinj e) (by decide),
   fun e => absurd (hinj e) (by decide),
   fun e => absurd (hinj e) (by decide),
   fun e => absurd (hinj e) (by decide)⟩

/-- Witness for C8 at a concrete injective hash (the identity). -/
theorem make_cache_key_sensitivity_witness :
    (make_cache_key (fun s => s) "Adele" "Hello" true (some "2,3") false false false
      = make_cache_key (fun s => s) "Adele" "Hello" true (some "2,3") false false false)
    ∧ (make_cache_key (fun s => s) "Adele X" "Hello" true (some "2,3") false false false
      ≠ make_cache_key (fun s => s) "Adele" "Hello" true (some "2,3") false false false)
    ∧ (make_cache_key (fun s => s) "Adele" "Hello 2" true (some "2,3") false false false
      ≠ make_cache_key (fun s => s) "Adele" "Hello" true (some "2,3") false false false)
    ∧ (make_cache_key (fun s => s) "Adele" "Hello" false (some "2,3") false false false
      ≠ make_cache_key (fun s => s) "Adele" "Hello" true (some "2,3") false false false)
    ∧ (make_cache_key (fun s => s) "Adele" "Hello" true (some "2,4") false false false
      ≠ make_cache_key (fun s => s) "Adele" "Hello" true (some "2,3") false false false)
    ∧ (make_cache_key (fun s => s) "Adele" "Hello" true (some "2,3") true false false
      ≠ make_cache_key (fun s => s) "Adele" "Hello" true (some "2,3") false false false)
    ∧ (make_cache_key (fun s => s) "Adele" "Hello" true (some "2,3") false true false
      ≠ make_cache_key (fun s => s) "Adele" "Hello" true (some "2,3") false false false)
    ∧ (make_cache_key (fun s => s) "Adele" "Hello" true (some "2,3") false false true
      ≠ make_cache_key (fun s => s) "Adele" "Hello" true (some "2,3") false false false) :=
  make_cache_key_sensitivity (fun s => s) (fun _ _ e => e)

/-- Claim C9: the lyrics route writes to the cache only a response whose
status is success and whose data payload carries lyric text; a successful
response without lyric text leaves the cache untouched, every entry the
step adds is the response itself under that condition, and the step
preserves the invariant that all cached responses are successful and
lyric-bearing. -/
theorem router_cache_write_policy (now ttl : ℚ) (key : String)
    (resp : ApiResult) (fs : CacheFS ApiResult) :
    (¬ goodCachedResp resp → routerCacheStep now ttl key resp fs = fs)
    ∧ (∀ k e, routerCacheStep now ttl key resp fs k = some e →
        fs k = some e ∨ (e.result = resp ∧ goodCachedResp resp))
    ∧ ((∀ k e, fs k = some e → goodCachedResp e.result) →
        ∀ k e, routerCacheStep now ttl key resp fs k = some e →
          goodCachedResp e.result) := by
  have hcond : ((decide (resp.status = "success") && hasLyricContent resp) = true)
      ↔ goodCachedResp resp := by
    simp [goodCachedResp]
  have h2 : ∀ k e, routerCacheStep now ttl key resp fs k = some e →
      fs k = some e ∨ (e.result = resp ∧ goodCachedResp resp) := by
    intro k e he
    unfold routerCacheStep at he
    by_cases hc : (decide (resp.status = "success") && hasLyricContent resp) = true
    · rw [if_pos hc] at he
      unfold save_to_cache at he
      by_cases hk : k = key
      · rw [if_pos hk] at he
        right
        refine ⟨?_, hcond.mp hc⟩
        have := Option.some_inj.mp he
        rw [← this]
      · rw [if_neg hk] at he
        left
        exact he
    · rw [if_neg hc] at he
      left
      exact he
  refine ⟨?_, h2, ?_⟩
  · intro hg
    unfold routerCacheStep
    rw [if_neg (fun hc => hg (hcond.mp hc))]
  · intro hinv k e he
    rcases h2 k e he with h | h
    · exact hinv k e h
    · rw [h.1]
      exact h.2

/-- Witness for C9: a successful response with an empty payload is not
written (the cache function is unchanged on an empty cache). -/
theorem router_cache_write_policy_witness :
    routerCacheStep 0 300 "k" ⟨"success", some ⟨"", "", ""⟩⟩ (fun _ => none)
      = (fun _ => none) :=
  (router_cache_write_policy 0 300 "k" ⟨"success", some ⟨"", "", ""⟩⟩ (fun _ => none)).1
    (by decide)

/-- Claim C10: a candidate from which no artist can be extracted or whose
extracted song title normalizes to the empty string is rejected with reason
Missing metadata, with no similarity score and no normalized metadata
fields in the verdict, and batch filtering never lets such a candidate into
the valid results. -/
theorem missing_metadata_rejected (ratio : String → String → ℚ)
    (ra rs : String) (r : LyrDict) (θ : ℚ)
    (h : (extract_artist_song_from_result r).1 = []
      ∨ (extract_artist_song_from_result r).2 = "") :
    validate_lyrics_match ratio ra rs r θ
      = ⟨false, "Missing metadata", none, none, none⟩
    ∧ ∀ (attempts : List VAttempt) (e : ValidEntry),
        e ∈ (validate_and_filter_results ratio ra rs attempts θ).valid_results →
        (extract_artist_song_from_result e.result).1 ≠ []
        ∧ (extract_artist_song_from_result e.result).2 ≠ "" := by
  refine ⟨validate_missing ratio ra rs r θ h, ?_⟩
  intro attempts e he
  have hv := collectValid_sound ratio ra rs θ attempts e he
  constructor
  · intro hEmpty
    rw [validate_missing ratio ra rs e.result θ (Or.inl hEmpty)] at hv
    simp at hv
  · intro hEmptyS
    rw [validate_missing ratio ra rs e.result θ (Or.inr hEmptyS)] at hv
    simp at hv

/-- Witness for C10 on a candidate with lyric content but no artist keys. -/
theorem missing_metadata_rejected_witness :
    validate_lyrics_match eqRatio "Adele" "Hello" noMetaCandidate (mkRat 3 4)
      = ⟨false, "Missing metadata", none, none, none⟩ :=
  (missing_metadata_rejected eqRatio "Adele" "Hello" noMetaCandidate (mkRat 3 4)
    (Or.inl (by decide))).1

/-- Claim C2: in sequential mode, when every provider before w in the
sequence fails to produce a validating candidate (its step continues with
an attempt record) and w produces one, the run returns the data of w, the
invoked providers are exactly the prefix up to and including w (so no later
provider is ever invoked), and each earlier provider contributed exactly
one attempt record. -/
theorem sequential_first_valid (ratio : String → String → ℚ)
    (artist song : String) (ts : Bool) (behavior : Nat → AdapterCall)
    (pre : List Nat) (w : Nat) (post : List Nat) (dw : LyrDict)
    (hpre : ∀ i ∈ pre,
      (seqStep ratio artist song ts ((FETCHER_MAP i).getD "") (behavior i)).isLeft = true)
    (hw : seqStep ratio artist song ts ((FETCHER_MAP w).getD "") (behavior w) = .inr dw) :
    (seqModeResult ratio artist song ts behavior (pre ++ w :: post)).1
      = .success dw none
    ∧ (seqModeResult ratio artist song ts behavior (pre ++ w :: post)).2.2
      = pre ++ [w]
    ∧ (seqModeResult ratio artist song ts behavior (pre ++ w :: post)).2.1.length
      = pre.length := by
  have hl := seqLoop_split ratio artist song ts behavior pre w post dw hpre hw
  refine ⟨?_, ?_, ?_⟩ <;>
    simp [seqModeResult, hl.1, hl.2.1, hl.2.2]

/-- Witness for C2 mirroring the specification example: sequence two,
three, four; provider two returns a wrong song (validation fails), provider
three a valid match; the result is the candidate of provider three, provider
four is never invoked, and provider two left one attempt record. -/
theorem sequential_first_valid_witness :
    (seqModeResult eqRatio "Adele" "Hello" false seqBehaviorExample ([2] ++ 3 :: [4])).1
      = .success exHelloA none
    ∧ (seqModeResult eqRatio "Adele" "Hello" false seqBehaviorExample ([2] ++ 3 :: [4])).2.2
      = [2] ++ [3]
    ∧ (seqModeResult eqRatio "Adele" "Hello" false seqBehaviorExample ([2] ++ 3 :: [4])).2.1.length
      = 1 :=
  sequential_first_valid eqRatio "Adele" "Hello" false seqBehaviorExample
    [2] 3 [4] exHelloA (by decide) (by decide)

/-- Counterexample to claim C4 as stated: with timestamps requested, a
candidate whose hasTimestamps flag is false but whose timed_lyrics track is
non-empty is accepted and returned by the orchestrator (run here with the
default synced sequence), instead of being treated as no usable result. -/
theorem timestamps_flag_counterexample :
    exTimedNoFlag.hasTimestamps = false
    ∧ exTimedNoFlag.timed_lyrics ≠ []
    ∧ (fetch_lyrics_controller eqRatio "Adele" "Hello" true false none false
        tsBehaviorExample []).1 = .success exTimedNoFlag none := by
  refine ⟨rfl, by decide, ?_⟩
  decide

/-- Claim C4 (amended): when timestamps are requested, a result is usable
only if its hasTimestamps flag is truthy or its timed_lyrics track is
non-empty or its timestamped key is truthy; a result with all three falsy
is recorded as no_results by the sequential step and by fetch_with_timeout
(within the time bound), so the run continues.  The flag alone being false
does not reject a result that carries a timed track. -/
theorem timestamps_requirement (ratio : String → String → ℚ)
    (artist song api : String) (call : AdapterCall) (r : LyrDict)
    (h : call.outcome = .fetched (some r))
    (hflag : r.hasTimestamps = false) (htrack : r.timed_lyrics = [])
    (hts : r.timestamped = false) :
    seqStep ratio artist song true api call = .inl ⟨api, .no_results⟩
    ∧ (call.duration ≤ 10 →
        fetch_with_timeout api call true 10
          = ⟨api, false, none, some "no_results"⟩) := by
  have hgate : timestampGate true r = false := by
    simp [timestampGate, hflag, htrack, hts]
  constructor
  · simp [seqStep, h, hgate]
  · intro hd
    simp [fetch_with_timeout, Nat.not_lt.mpr hd, h, hgate]

/-- Witness for C4 on a plain-only result: rejected on both paths when
timestamps are requested. -/
theorem timestamps_requirement_witness :
    seqStep eqRatio "Adele" "Hello" true "LRCLIB" ⟨0, .fetched (some exPlainOnly)⟩
      = .inl ⟨"LRCLIB", .no_results⟩
    ∧ fetch_with_timeout "LRCLIB" ⟨0, .fetched (some exPlainOnly)⟩ true 10
      = ⟨"LRCLIB", false, none, some "no_results"⟩ :=
  ⟨(timestamps_requirement eqRatio "Adele" "Hello" "LRCLIB"
      ⟨0, .fetched (some exPlainOnly)⟩ exPlainOnly rfl rfl rfl rfl).1,
   (timestamps_requirement eqRatio "Adele" "Hello" "LRCLIB"
      ⟨0, .fetched (some exPlainOnly)⟩ exPlainOnly rfl rfl rfl rfl).2 (by decide)⟩

/-- Counterexample to claim C5 as stated: in sequential mode a provider
call lasting 9999 seconds, far past the ten-second bound, is not recorded
as a timeout attempt and does not make the run continue to later providers;
its result is returned as the success, because the sequential loop awaits
the adapter directly without any per-call timeout. -/
theorem seq_timeout_counterexample :
    (slowBehaviorExample 1).duration = 9999
    ∧ 10 < (slowBehaviorExample 1).duration
    ∧ seqModeResult eqRatio "Adele" "Hello" false slowBehaviorExample
        [1, 2, 3, 4, 5, 6]
      = (.success exHelloA none, [], [1]) := by
  refine ⟨rfl, by decide, ?_⟩
  decide

/-- Claim C5 (amended): the ten-second per-call bound exists only on the
race-mode path, where fetch_with_timeout records an overlong call as a soft
timeout attempt; the sequential loop ignores call durations entirely, its
outcome depending only on what each adapter returns or raises. -/
theorem seq_duration_ignored (ratio : String → String → ℚ)
    (artist song : String) (ts : Bool) (b1 b2 : Nat → AdapterCall)
    (hout : ∀ i, (b1 i).outcome = (b2 i).outcome) (ids : List Nat) :
    seqModeResult ratio artist song ts b1 ids
      = seqModeResult ratio artist song ts b2 ids
    ∧ ∀ (api : String) (call : AdapterCall), 10 < call.duration →
        fetch_with_timeout api call ts 10
          = ⟨api, false, none, some "timeout"⟩ := by
  constructor
  · have hstep : ∀ i api,
        seqStep ratio artist song ts api (b1 i) = seqStep ratio artist song ts api (b2 i) := by
      intro i api
      unfold seqStep
      rw [hout i]
    have hloop : ∀ l, seqLoop ratio artist song ts b1 l = seqLoop ratio artist song ts b2 l := by
      intro l
      induction l with
      | nil => rfl
      | cons i rest ih =>
        simp only [seqLoop, hstep, ih]
    unfold seqModeResult
    rw [hloop]
  · intro api call hd
    simp [fetch_with_timeout, hd]

/-- Witness for C5: the slow and instant behaviors share their outcomes, so
the sequential run cannot see the difference, while race mode turns an
eleven-second call into a timeout attempt. -/
theorem seq_duration_ignored_witness :
    seqModeResult eqRatio "Adele" "Hello" false slowBehaviorExample [1, 2, 3]
      = seqModeResult eqRatio "Adele" "Hello" false fastBehaviorExample [1, 2, 3]
    ∧ fetch_with_timeout "LRCLIB" ⟨11, .fetched none⟩ false 10
      = ⟨"LRCLIB", false, none, some "timeout"⟩ :=
  ⟨(seq_duration_ignored eqRatio "Adele" "Hello" false slowBehaviorExample
      fastBehaviorExample (fun _ => rfl) [1, 2, 3]).1,
   (seq_duration_ignored eqRatio "Adele" "Hello" false slowBehaviorExample
      fastBehaviorExample (fun _ => rfl) [1, 2, 3]).2 "LRCLIB"
      ⟨11, .fetched none⟩ (by decide)⟩

/-- Claim C6: for every request with a supplied custom sequence (pass flag
set, non-empty sequence string, fast mode off) that parses to an id list
which is empty, or has a value outside one to six, or has more than six
entries, or has duplicates, the controller answers the invalid-sequence
error and invokes no provider adapter. -/
theorem invalid_sequence_rejected (ratio : String → String → ℚ)
    (artist song : String) (ts : Bool) (behavior : Nat → AdapterCall)
    (arrivals : List RaceAttempt) (s : String) (ids : List Int)
    (hs : s ≠ "")
    (hp : parseSequence s = some ids)
    (hbad : ids = [] ∨ (∃ x ∈ ids, x < 1 ∨ 6 < x) ∨ 6 < ids.length
      ∨ ¬ ids.Nodup) :
    fetch_lyrics_controller ratio artist song ts true (some s) false behavior arrivals
      = (.error "Invalid sequence: must be unique numbers between 1 and 6", []) := by
  have hinv : sequenceInvalid ids = true := by
    rcases hbad with h | h | h | h
    · simp [sequenceInvalid, h]
    · obtain ⟨x, hx, hlt⟩ := h
      have hall : (ids.all fun x => decide (1 ≤ x) && decide (x ≤ 6)) = false := by
        rw [Bool.eq_false_iff, Ne, List.all_eq_true]
        intro hall
        have hx6 := hall x hx
        simp at hx6
        rcases hlt with h' | h' <;> omega
      simp [sequenceInvalid, hall]
    · simp [sequenceInvalid, h]
    · have hne : ids.length ≠ ids.dedup.length := by
        intro hlen
        refine h ?_
        have hsub : ids.dedup.Sublist ids := List.dedup_sublist ids
        have heq : ids.dedup = ids := hsub.eq_of_length hlen.symm
        have hnd := List.nodup_dedup ids
        rwa [heq] at hnd
      simp [sequenceInvalid, hne]
  simp [fetch_lyrics_controller, controllerDispatch, seqTruthy, hs, hp, hinv]

/-- Witness for C6: the duplicate sequence one-comma-one is rejected with
no provider invoked. -/
theorem invalid_sequence_rejected_witness :
    fetch_lyrics_controller eqRatio "Adele" "Hello" false true (some "1,1") false
      idleBehavior []
      = (.error "Invalid sequence: must be unique numbers between 1 and 6", []) :=
  invalid_sequence_rejected eqRatio "Adele" "Hello" false idleBehavior [] "1,1"
    [1, 1] (by decide) (by decide)
    (Or.inr (Or.inr (Or.inr (by decide))))

/-- Counterexample to claim C1 as stated: custom sequence two-comma-three,
so provider two (LRCLIB) precedes provider three (SimpMusic) in the fetch
sequence; both candidates validate and both completions are in the arrival
schedule, but the lower-priority provider three completed first and its
candidate is the one returned — the provider-priority tie-break the claim
describes does not exist, because the race stops collecting at the first
completed success and the batch is evaluated in arrival order. -/
theorem race_priority_counterexample :
    (validate_lyrics_match eqRatio "Adele" "Hello" exHelloA (mkRat 3 4)).valid = true
    ∧ (validate_lyrics_match eqRatio "Adele" "Hello" exHelloB (mkRat 3 4)).valid = true
    ∧ (fetch_lyrics_controller eqRatio "Adele" "Hello" false true (some "2,3") false
        idleBehavior raceArrivalsExample).1 = .success exHelloB none
    ∧ exHelloB ≠ exHelloA := by
  refine ⟨by decide, by decide, ?_, by decide⟩
  decide

/-- Claim C1 (amended): in race mode the collected batch contains at most
one successful attempt — the first success in completion order — so two
validating successes never share a batch; the batch is validated in arrival
order, and the orchestrator returns the data of that first-completed
success whenever it validates, regardless of where its provider stands in
the fetch sequence. -/
theorem race_first_success_wins (ratio : String → String → ℚ)
    (artist song : String) (pre post : List RaceAttempt) (a : RaceAttempt)
    (r : LyrDict)
    (hpre : ∀ b ∈ pre, b.success = false) (ha : a.success = true)
    (hr : a.result = some r)
    (hv : (validate_lyrics_match ratio artist song r (mkRat 3 4)).valid = true) :
    ((fetch_lyrics_parallel (pre ++ a :: post)).2.filter
      (fun x => x.success)).length ≤ 1
    ∧ (raceModeResult ratio artist song (pre ++ a :: post)).dataOf = some r := by
  have hcol := raceCollect_split pre a post hpre ha
  constructor
  · unfold fetch_lyrics_parallel
    rw [hcol]
    have h1 : pre.filter (fun x => x.success) = [] := by
      rw [List.filter_eq_nil_iff]
      intro b hb
      simp [hpre b hb]
    simp [List.filter_append, h1, ha]
  · have hone : collectValid ratio artist song (mkRat 3 4)
        ((pre ++ [a]).map RaceAttempt.toVAttempt)
        = [⟨a.api, r, validate_lyrics_match ratio artist song r (mkRat 3 4)⟩] := by
      rw [List.map_append, collectValid_skip ratio artist song (mkRat 3 4) pre _ hpre]
      simp [collectValid, RaceAttempt.toVAttempt, ha, hr, hv]
    unfold raceModeResult fetch_lyrics_parallel
    rw [hcol]
    simp only [hr, validate_and_filter_results, hone, List.length_cons,
      List.length_nil]
    norm_num
    split <;> rfl

/-- Witness for C1: a failed completion arrives first, then the success;
the batch keeps at most one success and the orchestrator returns the data
of the first-completed success. -/
theorem race_first_success_wins_witness :
    ((fetch_lyrics_parallel raceArrivalsLate).2.filter
      (fun x => x.success)).length ≤ 1
    ∧ (raceModeResult eqRatio "Adele" "Hello" raceArrivalsLate).dataOf
      = some exHelloB :=
  race_first_success_wins eqRatio "Adele" "Hello"
    [⟨"LRCLIB", false, none, some "timeout"⟩]
    [] ⟨"SimpMusic", true, some exHelloB, none⟩ exHelloB
    (by decide) rfl rfl (by decide)

/-- Claim C3: the matcher accepts a candidate (with extractable metadata)
exactly when the song similarity between the normalized requested song and
the normalized returned song reaches the threshold and some requested
artist name matches by one of the three methods; moreover on acceptance the
requested artists admit a first hit whose method tag (methods tried in
order: artist list, partial artist string, song title) is the one recorded
in the verdict reason. -/
theorem matcher_acceptance_rule (ratio : String → String → ℚ) (θ : ℚ)
    (requested_artist requested_song : String) (r : LyrDict)
    (hA : (extract_artist_song_from_result r).1 ≠ [])
    (hS : (extract_artist_song_from_result r).2 ≠ "") :
    ((validate_lyrics_match ratio requested_artist requested_song r θ).valid = true ↔
      (θ ≤ get_similarity_ratio ratio (normalize_string requested_song)
          (extract_artist_song_from_result r).2
        ∧ ∃ req ∈ split_artists requested_artist,
            artistHit ratio θ (extract_artist_song_from_result r).1
              (extract_artist_song_from_result r).2 req))
    ∧ ((validate_lyrics_match ratio requested_artist requested_song r θ).valid = true →
        ∃ pre req post,
          split_artists requested_artist = pre ++ req :: post
          ∧ (∀ q ∈ pre, ¬ artistHit ratio θ (extract_artist_song_from_result r).1
              (extract_artist_song_from_result r).2 q)
          ∧ artistHit ratio θ (extract_artist_song_from_result r).1
              (extract_artist_song_from_result r).2 req
          ∧ (validate_lyrics_match ratio requested_artist requested_song r θ).reason
            = "Matched via " ++ hitTag ratio θ (extract_artist_song_from_result r).1
                (extract_artist_song_from_result r).2 req) := by
  have hsh := validate_shape ratio requested_artist requested_song r θ hA hS
  cases hLoop : artistLoop ratio θ (extract_artist_song_from_result r).1
      (String.intercalate " " (extract_artist_song_from_result r).1)
      (extract_artist_song_from_result r).2 (split_artists requested_artist) with
  | none =>
    rw [hLoop] at hsh
    have hvalid : (validate_lyrics_match ratio requested_artist requested_song r θ).valid
        = false := by
      rw [hsh]
    refine ⟨iff_of_false (by simp [hvalid]) ?_, ?_⟩
    · rintro ⟨hsim, req, hreq, hhit⟩
      exact (artistLoop_none_iff ratio θ (extract_artist_song_from_result r).1
        (extract_artist_song_from_result r).2
        (split_artists requested_artist)).mp hLoop req hreq hhit
    · intro hvld
      rw [hvalid] at hvld
      exact absurd hvld (by simp)
  | some tag =>
    rw [hLoop] at hsh
    obtain ⟨pre, req, post, hEq, hPre, hHit, hTag⟩ :=
      artistLoop_some ratio θ (extract_artist_song_from_result r).1
        (extract_artist_song_from_result r).2
        (split_artists requested_artist) tag hLoop
    by_cases hsim : θ ≤ get_similarity_ratio ratio (normalize_string requested_song)
        (extract_artist_song_from_result r).2
    · have hvalid : (validate_lyrics_match ratio requested_artist requested_song r θ).valid
          = true := by
        rw [hsh]
        simp [hsim]
      have hreason : (validate_lyrics_match ratio requested_artist requested_song r θ).reason
          = "Matched via " ++ tag := by
        rw [hsh]
        simp [hsim]
      refine ⟨iff_of_true hvalid ⟨hsim, req, ?_, hHit⟩, ?_⟩
      · rw [hEq]
        exact List.mem_append_right _ (List.mem_cons_self _ _)
      · intro _
        exact ⟨pre, req, post, hEq, hPre, hHit, by rw [hreason, hTag]⟩
    · have hvalid : (validate_lyrics_match ratio requested_artist requested_song r θ).valid
          = false := by
        rw [hsh]
        simp [hsim]
      refine ⟨iff_of_false (by simp [hvalid]) ?_, ?_⟩
      · rintro ⟨hs, _⟩
        exact hsim hs
      · intro hvld
        rw [hvalid] at hvld
        exact absurd hvld (by simp)

/-- Witness for C3 at the specification example shape: requested Ed
Sheeran, returned Ed Sheeran and Stormzy, matching song title, threshold
0.75. -/
theorem matcher_acceptance_rule_witness :
    (validate_lyrics_match eqRatio "Ed Sheeran" "Shape of You" exShapeCandidate
      (mkRat 3 4)).valid = true :=
  (matcher_acceptance_rule eqRatio (mkRat 3 4) "Ed Sheeran" "Shape of You"
    exShapeCandidate (by decide) (by decide)).1.mpr (by decide)

end Lyrica
